import Mathlib

/-!
Shallow embedding of the frontend framework / bundler detector: the
`detect` function together with the static registries `bundlers` and
`FRONTEND_FRAMEWORKS`, and the semantic-version range check `satisfies`
that the detector rules use.  Registry entries keep exactly the fields
that `detect` reads (type, name, family, supportedBundlers, detectors);
the code-generation templates and package metadata are inert data that
the detector never touches.
-/

namespace FrameworkDetector

/-- A detector rule: a required version range for a named dependency. -/
structure Detector where
  version : String
  dependency : String
  deriving DecidableEq, Repr

/-- A bundler descriptor: its type tag and its detector rules. -/
structure Bundler where
  type : String
  detectors : List Detector
  deriving DecidableEq, Repr

/-- A framework descriptor, keeping the fields read by `detect`. -/
structure FrontendFramework where
  type : String
  name : String
  family : String
  supportedBundlers : List String
  detectors : List Detector
  deriving DecidableEq, Repr

/-- A package manifest: regular and development dependency maps, each a
name-to-declared-range association list (keys unique, first match wins). -/
structure PkgJson where
  dependencies : List (String × String)
  devDependencies : List (String × String)
  deriving DecidableEq, Repr

/-- The detection result: an optional framework and an optional bundler tag. -/
structure DetectFramework where
  framework : Option FrontendFramework
  bundler : Option String
  deriving DecidableEq, Repr

/-! ### Semantic-version range satisfaction

Modelled from the spec: the detector delegates range checking to an external
semver routine (`satisfies` of the `compare-versions` package, not part of
this repository), which the spec constrains to standard range satisfaction
with comparator operators, caret and tilde ranges and the `*`/`x` wildcard,
with malformed version strings treated as non-satisfying (fail closed), and
with a declared range such as `^16.0.0` checked via its base version against
the rule's range. -/

/-- Accumulate a decimal number from a digit list; `none` on a non-digit. -/
def digitsToNatAux : List Char → Nat → Option Nat
  | [], acc => some acc
  | c :: cs, acc =>
    if c.isDigit then digitsToNatAux cs (acc * 10 + (c.toNat - 48)) else none

/-- Parse a non-empty all-digit list as a number; `none` otherwise. -/
def digitsToNat : List Char → Option Nat
  | [] => none
  | c :: cs => digitsToNatAux (c :: cs) 0

/-- A version component: a number, or `none` for the `x`/`*` wildcard. -/
abbrev VerComp := Option Nat

/-- Parse one dot-separated component: wildcard or decimal number. -/
def parseComp (cs : List Char) : Option VerComp :=
  if cs == ['x'] || cs == ['X'] || cs == ['*'] then some none
  else (digitsToNat cs).map some

/-- Split a character list at the dots. -/
def splitDots : List Char → List (List Char)
  | [] => [[]]
  | c :: rest =>
    if c == '.' then [] :: splitDots rest
    else
      match splitDots rest with
      | [] => [[c]]
      | g :: gs => (c :: g) :: gs

/-- A parsed version: major, minor and patch components. -/
abbrev Version := VerComp × VerComp × VerComp

/-- Assemble one to three components into a version, missing ones are zero. -/
def parseParts : List (List Char) → Option Version
  | [a] => do pure (← parseComp a, some 0, some 0)
  | [a, b] => do pure (← parseComp a, ← parseComp b, some 0)
  | [a, b, c] => do pure (← parseComp a, ← parseComp b, ← parseComp c)
  | _ => none

/-- Leading characters that a bare version may carry (`v` and range marks). -/
def isRangeChar (c : Char) : Bool :=
  c == 'v' || c == '^' || c == '~' || c == '<' || c == '>' || c == '='

/-- Parse a declared version string down to its base version, stripping any
leading range operator characters; `none` when malformed. -/
def parseVersion (s : String) : Option Version :=
  parseParts (splitDots (s.data.dropWhile isRangeChar))

/-- Range operators understood by the checker. -/
inductive RangeOp
  | eq | gt | ge | lt | le | caret | tilde
  deriving DecidableEq, Repr

/-- Split a leading range operator off a character list (default `=`). -/
def parseRangeOp : List Char → RangeOp × List Char
  | '>' :: '=' :: cs => (.ge, cs)
  | '<' :: '=' :: cs => (.le, cs)
  | '>' :: cs => (.gt, cs)
  | '<' :: cs => (.lt, cs)
  | '=' :: cs => (.eq, cs)
  | '^' :: cs => (.caret, cs)
  | '~' :: cs => (.tilde, cs)
  | cs => (.eq, cs)

/-- Parse a range string into its operator and base version. -/
def parseRange (s : String) : Option (RangeOp × Version) :=
  let (op, rest) := parseRangeOp s.data
  (parseParts (splitDots (rest.dropWhile isRangeChar))).map (fun v => (op, v))

/-- Compare two components; a wildcard compares equal to anything. -/
def compComp : VerComp → VerComp → Ordering
  | none, _ => .eq
  | _, none => .eq
  | some a, some b => compare a b

/-- Lexicographic wildcard-aware comparison of two versions. -/
def verCmp (v w : Version) : Ordering :=
  (compComp v.1 w.1).then ((compComp v.2.1 w.2.1).then (compComp v.2.2 w.2.2))

/-- Does version `v` fall in the range `(op, r)`? -/
def rangeHolds (op : RangeOp) (v r : Version) : Bool :=
  match op with
  | .eq => verCmp v r == .eq
  | .gt => verCmp v r == .gt
  | .ge => verCmp v r != .lt
  | .lt => verCmp v r == .lt
  | .le => verCmp v r != .gt
  | .caret =>
    compComp v.1 r.1 == .eq &&
      ((compComp v.2.1 r.2.1).then (compComp v.2.2 r.2.2)) != .lt
  | .tilde =>
    compComp v.1 r.1 == .eq && compComp v.2.1 r.2.1 == .eq &&
      compComp v.2.2 r.2.2 != .lt

/-- Modelled from the spec: semver range satisfaction (the `satisfies`
routine of the external `compare-versions` dependency, absent from this
repository).  The declared string's base version is checked against the
required range; a malformed string on either side fails closed. -/
def satisfies (version range : String) : Bool :=
  match parseVersion version, parseRange range with
  | some v, some (op, r) => rangeHolds op v r
  | _, _ => false

/-! ### The static registries -/

/-- The vite detector rule. -/
def viteDetector : Detector := { version := ">=2.0.0", dependency := "vite" }

/-- The webpack detector rule. -/
def webpackDetector : Detector := { version := ">=4.0.0", dependency := "webpack" }

/-- The vite bundler registry entry. -/
def viteBundler : Bundler := { type := "vite", detectors := [viteDetector] }

/-- The webpack bundler registry entry. -/
def webpackBundler : Bundler := { type := "webpack", detectors := [webpackDetector] }

/-- The static bundler registry, in declared order: vite, then webpack. -/
def bundlers : List Bundler := [viteBundler, webpackBundler]

/-- Create React App registry entry. -/
def craFramework : FrontendFramework :=
  { type := "cra"
    name := "Create React App"
    family := "template"
    supportedBundlers := ["webpack"]
    detectors := [{ version := ">=4.0.0", dependency := "react-scripts" }] }

/-- Vue CLI (Vue 2) registry entry. -/
def vueCliVue2Framework : FrontendFramework :=
  { type := "vueclivue2"
    name := "Vue CLI (Vue 2)"
    family := "template"
    supportedBundlers := ["webpack"]
    detectors := [{ version := "^4.0.0", dependency := "@vue/cli-service" },
                  { version := "^2.0.0", dependency := "vue" }] }

/-- Vue CLI (Vue 3) registry entry. -/
def vueCliVue3Framework : FrontendFramework :=
  { type := "vueclivue3"
    name := "Vue CLI (Vue 3)"
    family := "template"
    supportedBundlers := ["webpack"]
    detectors := [{ version := "^4.0.0", dependency := "@vue/cli-service" },
                  { version := "^3.0.0", dependency := "vue" }] }

/-- React library registry entry. -/
def reactFramework : FrontendFramework :=
  { type := "react"
    name := "React.js"
    family := "library"
    supportedBundlers := ["webpack", "vite"]
    detectors := [{ version := ">=16.0.0", dependency := "react" },
                  { version := ">=16.0.0", dependency := "react-dom" }] }

/-- Vue.js (v2) library registry entry. -/
def vue2Framework : FrontendFramework :=
  { type := "vue2"
    name := "Vue.js (v2)"
    family := "library"
    supportedBundlers := ["webpack", "vite"]
    detectors := [{ version := "^2.0.0", dependency := "vue" }] }

/-- Vue.js (v3) library registry entry. -/
def vue3Framework : FrontendFramework :=
  { type := "vue3"
    name := "Vue.js (v3)"
    family := "library"
    supportedBundlers := ["webpack", "vite"]
    detectors := [{ version := "^3.0.0", dependency := "vue" }] }

/-- Next.js registry entry. -/
def nextJsFramework : FrontendFramework :=
  { type := "nextjs"
    name := "Next.js"
    family := "template"
    supportedBundlers := ["webpack"]
    detectors := [{ version := ">=11.0.0", dependency := "next" }] }

/-- Nuxt.js (v2) registry entry. -/
def nuxtJsFramework : FrontendFramework :=
  { type := "nuxtjs"
    name := "Nuxt.js (v2)"
    family := "template"
    supportedBundlers := ["webpack"]
    detectors := [{ version := "^2.0.0", dependency := "nuxt" }] }

/-- The static framework registry, in source order. -/
def FRONTEND_FRAMEWORKS : List FrontendFramework :=
  [craFramework, vueCliVue2Framework, vueCliVue3Framework,
   reactFramework, vue2Framework, vue3Framework,
   nextJsFramework, nuxtJsFramework]

/-! ### The detector -/

/-- Association-list lookup, first matching key wins. -/
def depLookup : List (String × String) → String → Option String
  | [], _ => none
  | (k, v) :: rest, d => if k == d then some v else depLookup rest d

/-- The declared range for a dependency:
`pkg.dependencies?.[d] || pkg.devDependencies?.[d]` — a falsy (empty)
regular entry falls through to the development partition. -/
def lookupVers (pkg : PkgJson) (d : String) : Option String :=
  match depLookup pkg.dependencies d with
  | some v => if v == "" then depLookup pkg.devDependencies d else some v
  | none => depLookup pkg.devDependencies d

/-- `(vers && satisfies(vers, detector.version)) ?? false`: the rule holds
when the dependency is declared with a non-empty range that satisfies the
rule's range. -/
def inPkgJson (pkg : PkgJson) (detector : Detector) : Bool :=
  match lookupVers pkg detector.dependency with
  | none => false
  | some v => v != "" && satisfies v detector.version

/-- The template pass: first framework whose rules all hold and that
supports exactly one bundler is returned with no bundler. -/
def templatePass (pkg : PkgJson) : List FrontendFramework → Option DetectFramework
  | [] => none
  | framework :: rest =>
    if framework.detectors.all (inPkgJson pkg) &&
        framework.supportedBundlers.length == 1 then
      some { framework := some framework, bundler := none }
    else templatePass pkg rest

/-- The inner bundler loop of the library pass: with a matching library it
returns on the first iteration, with the bundler when its rules hold and
without one otherwise; with no matching library it returns nothing. -/
def bundlerLoop (pkg : PkgJson) (library : FrontendFramework) (hasLibrary : Bool) :
    List Bundler → Option DetectFramework
  | [] => none
  | b :: rest =>
    let hasBundler := b.detectors.all (inPkgJson pkg)
    if hasLibrary && hasBundler then
      some { framework := some library, bundler := some b.type }
    else if hasLibrary then
      some { framework := some library, bundler := none }
    else bundlerLoop pkg library hasLibrary rest

/-- The library pass: for each library in order, run the bundler loop. -/
def libraryPass (pkg : PkgJson) : List FrontendFramework → Option DetectFramework
  | [] => none
  | library :: rest =>
    match bundlerLoop pkg library (library.detectors.all (inPkgJson pkg)) bundlers with
    | some r => some r
    | none => libraryPass pkg rest

/-- The registry filtered to templates. -/
def templateFrameworks : List FrontendFramework :=
  FRONTEND_FRAMEWORKS.filter fun x => x.family == "template"

/-- The registry filtered to libraries. -/
def libraryFrameworks : List FrontendFramework :=
  FRONTEND_FRAMEWORKS.filter fun x => x.family == "library"

/-- The second stage of `detect`: the library pass, defaulting to the
empty result. -/
def libraryDetect (pkg : PkgJson) : DetectFramework :=
  match libraryPass pkg libraryFrameworks with
  | some r => r
  | none => { framework := none, bundler := none }

/-- `detect`: template pass first, then the library pass, else nothing. -/
def detect (pkg : PkgJson) : DetectFramework :=
  match templatePass pkg templateFrameworks with
  | some r => r
  | none => libraryDetect pkg

/-- The concrete manifest from the spec's React-with-vite test property. -/
def pkgReactVite : PkgJson :=
  { dependencies :=
      [("react", ">=16.2.0"), ("react-dom", ">=16.2.0"), ("vite", ">=2.1.0")],
    devDependencies := [] }

/-- A manifest declaring only `react-scripts`, matching Create React App. -/
def pkgCra : PkgJson :=
  { dependencies := [("react-scripts", "^4.0.0")], devDependencies := [] }

/-- The empty manifest. -/
def pkgEmpty : PkgJson := { dependencies := [], devDependencies := [] }

/-- A manifest satisfying both the Create React App rules and the
Vue CLI (Vue 2) rules. -/
def pkgCraAndVueCli : PkgJson :=
  { dependencies :=
      [("react-scripts", "^4.0.0"), ("@vue/cli-service", "^4.0.0"), ("vue", "^2.5.0")],
    devDependencies := [] }

/-- A manifest declaring `react` with a malformed version string. -/
def pkgMalformed : PkgJson :=
  { dependencies := [("react", "not-a-version")], devDependencies := [] }

/-- A detector rule requiring `react` at `>=16.0.0`. -/
def reactMinRule : Detector := { version := ">=16.0.0", dependency := "react" }

/-- A manifest declaring `react` at `^16.0.0`. -/
def pkgCaret16 : PkgJson :=
  { dependencies := [("react", "^16.0.0")], devDependencies := [] }

/-- A manifest declaring `react` at `^15.9.0`. -/
def pkgCaret159 : PkgJson :=
  { dependencies := [("react", "^15.9.0")], devDependencies := [] }

/-! ### Structural lemmas about the passes -/

theorem templatePass_eq (pkg : PkgJson) (ts : List FrontendFramework) :
    templatePass pkg ts =
      ((ts.filter fun f =>
          f.detectors.all (inPkgJson pkg) && f.supportedBundlers.length == 1).head?).map
        (fun f => { framework := some f, bundler := none }) := by
  induction ts with
  | nil => rfl
  | cons f rest ih =>
    by_cases h : (f.detectors.all (inPkgJson pkg) && f.supportedBundlers.length == 1) = true
    · simp [templatePass, h]
    · simp [templatePass, h, ih]

theorem bundlerLoop_no_library (pkg : PkgJson) (library : FrontendFramework)
    (bs : List Bundler) : bundlerLoop pkg library false bs = none := by
  induction bs with
  | nil => rfl
  | cons b rest ih => simp [bundlerLoop, ih]

theorem bundlerLoop_library (pkg : PkgJson) (library : FrontendFramework)
    (b : Bundler) (rest : List Bundler) :
    bundlerLoop pkg library true (b :: rest) =
      some (if b.detectors.all (inPkgJson pkg) then
              { framework := some library, bundler := some b.type }
            else { framework := some library, bundler := none }) := by
  by_cases h : b.detectors.all (inPkgJson pkg) = true <;> simp [bundlerLoop, h]

theorem libraryPass_eq (pkg : PkgJson) (ls : List FrontendFramework) :
    libraryPass pkg ls =
      ((ls.filter fun f => f.detectors.all (inPkgJson pkg)).head?).map
        (fun l =>
          if inPkgJson pkg viteDetector then
            { framework := some l, bundler := some "vite" }
          else { framework := some l, bundler := none }) := by
  induction ls with
  | nil => rfl
  | cons l rest ih =>
    by_cases h : l.detectors.all (inPkgJson pkg) = true
    · simp only [libraryPass, h, show bundlers = [viteBundler, webpackBundler] from rfl,
        bundlerLoop_library]
      by_cases hv : inPkgJson pkg viteDetector = true
      · simp [viteBundler, h, hv]
      · simp [viteBundler, h, hv]
    · simp only [libraryPass, h, bundlerLoop_no_library, ih]
      simp [h]

theorem templatePass_some_shape (pkg : PkgJson) (ts : List FrontendFramework)
    (r : DetectFramework) (h : templatePass pkg ts = some r) :
    ∃ f, r = { framework := some f, bundler := none } ∧ f ∈ ts ∧
      (f.detectors.all (inPkgJson pkg) && f.supportedBundlers.length == 1) = true := by
  rw [templatePass_eq] at h
  rcases Option.map_eq_some'.mp h with ⟨f, hf, hr⟩
  rcases List.head?_eq_some_iff.mp hf with ⟨ys, hys⟩
  have hmem : f ∈ ts.filter fun f =>
      f.detectors.all (inPkgJson pkg) && f.supportedBundlers.length == 1 := by
    rw [hys]; exact List.mem_cons_self f ys
  rcases List.mem_filter.mp hmem with ⟨hts, hpred⟩
  exact ⟨f, hr.symm, hts, hpred⟩

theorem libraryPass_some_shape (pkg : PkgJson) (ls : List FrontendFramework)
    (r : DetectFramework) (h : libraryPass pkg ls = some r) :
    ∃ l, l ∈ ls ∧ l.detectors.all (inPkgJson pkg) = true ∧
      (r = { framework := some l, bundler := some "vite" } ∨
       r = { framework := some l, bundler := none }) := by
  rw [libraryPass_eq] at h
  rcases Option.map_eq_some'.mp h with ⟨l, hl, hr⟩
  rcases List.head?_eq_some_iff.mp hl with ⟨ys, hys⟩
  have hmem : l ∈ ls.filter fun f => f.detectors.all (inPkgJson pkg) := by
    rw [hys]; exact List.mem_cons_self l ys
  rcases List.mem_filter.mp hmem with ⟨hls, hpred⟩
  refine ⟨l, hls, hpred, ?_⟩
  by_cases hv : inPkgJson pkg viteDetector = true
  · left; rw [← hr]; simp [hv]
  · right; rw [← hr]; simp [hv]

/-! ### The claims -/

/-- C1: In the library pass, for every manifest: when no template matched and
the first library (in registry order) whose rules are all satisfied is `l`,
then for the first bundler `b` of the static bundler list: if `b`'s rules are
all satisfied and `l` supports it, `detect` returns `l` with bundler `b.type`
immediately (first library, first compatible bundler wins); and as soon as
`b` fails its rule check, `detect` returns `l` with the bundler absent,
without trying any later bundler. -/
theorem detect_library_pass_first_bundler (pkg : PkgJson)
    (l : FrontendFramework) (b : Bundler)
    (hT : templatePass pkg templateFrameworks = none)
    (hL : ((libraryFrameworks.filter fun f =>
        f.detectors.all (inPkgJson pkg)).head?) = some l)
    (hB : bundlers.head? = some b) :
    (b.detectors.all (inPkgJson pkg) = true →
       l.supportedBundlers.contains b.type = true →
       detect pkg = { framework := some l, bundler := some b.type }) ∧
    (b.detectors.all (inPkgJson pkg) = false →
       detect pkg = { framework := some l, bundler := none }) := by
  have hb : b = viteBundler := by
    simp only [bundlers, List.head?, Option.some.injEq] at hB
    exact hB.symm
  subst hb
  have hd : detect pkg = libraryDetect pkg := by simp [detect, hT]
  have hlp := libraryPass_eq pkg libraryFrameworks
  rw [hL] at hlp
  constructor
  · intro hbs _
    have hv : inPkgJson pkg viteDetector = true := by
      simpa [viteBundler] using hbs
    rw [hd]
    simp [libraryDetect, hlp, hv, viteBundler]
  · intro hbs
    have hv : inPkgJson pkg viteDetector = false := by
      simpa [viteBundler] using hbs
    rw [hd]
    simp [libraryDetect, hlp, hv]

/-- C1 witness: on the React-plus-vite manifest, no template matches, React
is the first matching library, vite is the first bundler and matches, so
`detect` returns React with vite. -/
theorem detect_library_pass_first_bundler_witness :
    detect pkgReactVite =
      { framework := some reactFramework, bundler := some "vite" } :=
  (detect_library_pass_first_bundler pkgReactVite reactFramework viteBundler
    (by decide) (by decide) rfl).1 (by decide) (by decide)

/-- C2: The template pass returns, with no bundler, the first registry
template whose rules are all satisfied and whose supported-bundler list has
exactly one element, and nothing otherwise; whenever such a first template
exists, `detect` terminates immediately with it (earlier registry entries
win ties). -/
theorem detect_template_pass_selection (pkg : PkgJson) :
    templatePass pkg templateFrameworks =
      ((templateFrameworks.filter fun f =>
          f.detectors.all (inPkgJson pkg) &&
            f.supportedBundlers.length == 1).head?).map
        (fun f => { framework := some f, bundler := none }) ∧
    ∀ f, ((templateFrameworks.filter fun f =>
          f.detectors.all (inPkgJson pkg) &&
            f.supportedBundlers.length == 1).head?) = some f →
      detect pkg = { framework := some f, bundler := none } := by
  refine ⟨templatePass_eq pkg templateFrameworks, ?_⟩
  intro f hf
  have ht := templatePass_eq pkg templateFrameworks
  rw [hf] at ht
  simp [detect, ht]

/-- C2 witness: on the Create-React-App manifest the first (and only)
matching single-bundler template is the CRA entry, and `detect` returns it
with no bundler. -/
theorem detect_template_pass_selection_witness :
    detect pkgCra = { framework := some craFramework, bundler := none } :=
  (detect_template_pass_selection pkgCra).2 craFramework (by decide)

/-- C3: The template pass never selects a framework whose supported-bundler
list does not have exactly one element; and when every rule-satisfied
template of the registry is multi-bundler, the template pass yields nothing
and detection falls through to the library pass. -/
theorem multi_bundler_template_skipped :
    (∀ (pkg : PkgJson) (ts : List FrontendFramework) (r : DetectFramework)
       (f : FrontendFramework), templatePass pkg ts = some r →
         r.framework = some f → f.supportedBundlers.length = 1) ∧
    (∀ pkg : PkgJson,
       (∀ f ∈ templateFrameworks, f.detectors.all (inPkgJson pkg) = true →
          1 < f.supportedBundlers.length) →
       templatePass pkg templateFrameworks = none ∧
         detect pkg = libraryDetect pkg) := by
  constructor
  · intro pkg ts r f hr hf
    rcases templatePass_some_shape pkg ts r hr with ⟨g, hrg, _, hpred⟩
    rw [hrg] at hf
    have hgf : g = f := by simpa using hf
    subst hgf
    have hlen := ((Bool.and_eq_true _ _).mp hpred).2
    simpa using hlen
  · intro pkg h
    have ht : (templateFrameworks.filter fun f =>
        f.detectors.all (inPkgJson pkg) &&
          f.supportedBundlers.length == 1) = [] := by
      rw [List.filter_eq_nil_iff]
      intro f hf hpred
      rcases (Bool.and_eq_true _ _).mp hpred with ⟨hall, hlen⟩
      have h1 : f.supportedBundlers.length = 1 := by simpa using hlen
      have h2 := h f hf hall
      omega
    have hT : templatePass pkg templateFrameworks = none := by
      rw [templatePass_eq, ht]; rfl
    exact ⟨hT, by simp [detect, hT]⟩

/-- C3 witness: the CRA template selected on the CRA manifest indeed has a
one-element bundler list, and on the empty manifest (where the premise of
the fall-through part holds vacuously) detection falls to the library
pass. -/
theorem multi_bundler_template_skipped_witness :
    craFramework.supportedBundlers.length = 1 ∧
    (templatePass pkgEmpty templateFrameworks = none ∧
      detect pkgEmpty = libraryDetect pkgEmpty) :=
  ⟨multi_bundler_template_skipped.1 pkgCra templateFrameworks
      { framework := some craFramework, bundler := none } craFramework
      (by decide) rfl,
   multi_bundler_template_skipped.2 pkgEmpty (by decide)⟩

/-- C4: On the manifest declaring react at `>=16.2.0`, react-dom at
`>=16.2.0` and vite at `>=2.1.0` (no devDependencies), `detect` returns the
React library descriptor with bundler `vite`. -/
theorem detect_react_vite_manifest :
    detect pkgReactVite =
      { framework := some reactFramework, bundler := some "vite" } := by
  decide

/-- C5: For every manifest on which no registry framework has all its
detector rules satisfied, `detect` returns the result with both the
framework and the bundler absent. -/
theorem detect_no_match (pkg : PkgJson)
    (h : ∀ f ∈ FRONTEND_FRAMEWORKS, f.detectors.all (inPkgJson pkg) = false) :
    detect pkg = { framework := none, bundler := none } := by
  have ht : templatePass pkg templateFrameworks = none := by
    rw [templatePass_eq]
    have hnil : (templateFrameworks.filter fun f =>
        f.detectors.all (inPkgJson pkg) &&
          f.supportedBundlers.length == 1) = [] := by
      rw [List.filter_eq_nil_iff]
      intro f hf hpred
      simp only [templateFrameworks] at hf
      have hmem : f ∈ FRONTEND_FRAMEWORKS := List.mem_of_mem_filter hf
      rcases (Bool.and_eq_true _ _).mp hpred with ⟨hall, _⟩
      rw [h f hmem] at hall
      exact Bool.false_ne_true hall
    rw [hnil]; rfl
  have hl : libraryPass pkg libraryFrameworks = none := by
    rw [libraryPass_eq]
    have hnil : (libraryFrameworks.filter fun f =>
        f.detectors.all (inPkgJson pkg)) = [] := by
      rw [List.filter_eq_nil_iff]
      intro f hf hpred
      simp only [libraryFrameworks] at hf
      have hmem : f ∈ FRONTEND_FRAMEWORKS := List.mem_of_mem_filter hf
      rw [h f hmem] at hpred
      exact Bool.false_ne_true hpred
    rw [hnil]; rfl
  simp [detect, ht, libraryDetect, hl]

/-- C5 witness: the empty manifest matches no rules, and `detect` returns
the empty result on it. -/
theorem detect_no_match_witness :
    detect pkgEmpty = { framework := none, bundler := none } :=
  detect_no_match pkgEmpty (by decide)

/-- C6: The rule-satisfaction check used by `detect` respects range
semantics: a manifest declaring react at `^16.0.0` satisfies a rule
requiring react `>=16.0.0`, and one declaring it at `^15.9.0` does not. -/
theorem rule_satisfaction_range_semantics :
    inPkgJson pkgCaret16 reactMinRule = true ∧
    inPkgJson pkgCaret159 reactMinRule = false := by
  exact ⟨by decide, by decide⟩

/-- C7 counterexample: the manifest declaring react-scripts `^4.0.0`,
`@vue/cli-service` `^4.0.0` and vue `^2.5.0` satisfies all rules of the
single-bundler Vue CLI (Vue 2) template, yet `detect` does not return that
template: it returns the earlier Create React App entry. -/
theorem single_bundler_template_counterexample :
    vueCliVue2Framework ∈ templateFrameworks ∧
    vueCliVue2Framework.detectors.all (inPkgJson pkgCraAndVueCli) = true ∧
    vueCliVue2Framework.supportedBundlers.length = 1 ∧
    detect pkgCraAndVueCli ≠
      { framework := some vueCliVue2Framework, bundler := none } ∧
    detect pkgCraAndVueCli =
      { framework := some craFramework, bundler := none } :=
  ⟨by decide, by decide, by decide, by decide, by decide⟩

/-- C7 amended: for every manifest, the first template in registry order
whose detector rules are all satisfied and whose supported-bundler list has
exactly one element is returned by `detect` with the bundler absent,
regardless of what other packages the manifest declares. -/
theorem first_single_bundler_template_returned (pkg : PkgJson)
    (f : FrontendFramework)
    (h : ((templateFrameworks.filter fun g =>
        g.detectors.all (inPkgJson pkg) &&
          g.supportedBundlers.length == 1).head?) = some f) :
    detect pkg = { framework := some f, bundler := none } := by
  have ht := templatePass_eq pkg templateFrameworks
  rw [h] at ht
  simp [detect, ht]

/-- C7 amended witness: on the Create-React-App manifest the first such
template is the CRA entry and `detect` returns it with no bundler. -/
theorem first_single_bundler_template_returned_witness :
    detect pkgCra = { framework := some craFramework, bundler := none } :=
  first_single_bundler_template_returned pkgCra craFramework (by decide)

/-- C8: A malformed declared version string makes the corresponding rule
evaluate to not-satisfied (fail closed); detection, a total function, never
raises. -/
theorem malformed_version_fails_closed (pkg : PkgJson) (d : Detector)
    (v : String) (hv : lookupVers pkg d.dependency = some v)
    (hmal : parseVersion v = none) :
    inPkgJson pkg d = false := by
  simp [inPkgJson, hv, satisfies, hmal]

/-- C8 witness: the manifest declaring react as `not-a-version` does not
satisfy the react rule. -/
theorem malformed_version_fails_closed_witness :
    inPkgJson pkgMalformed reactMinRule = false :=
  malformed_version_fails_closed pkgMalformed reactMinRule "not-a-version"
    (by decide) (by decide)

/-- C9: With the static registries as written (vite before webpack),
`detect` never returns the webpack bundler: every result's bundler is
either absent or vite. -/
theorem detect_never_webpack (pkg : PkgJson) :
    (detect pkg).bundler ≠ some "webpack" ∧
    ((detect pkg).bundler = none ∨ (detect pkg).bundler = some "vite") := by
  have hshape : (detect pkg).bundler = none ∨
      (detect pkg).bundler = some "vite" := by
    rcases hT : templatePass pkg templateFrameworks with _ | r
    · rcases hl : libraryPass pkg libraryFrameworks with _ | r
      · left; simp [detect, hT, libraryDetect, hl]
      · rcases libraryPass_some_shape pkg libraryFrameworks r hl with
          ⟨l, _, _, hr | hr⟩
        · right; simp [detect, hT, libraryDetect, hl, hr]
        · left; simp [detect, hT, libraryDetect, hl, hr]
    · rcases templatePass_some_shape pkg templateFrameworks r hT with
        ⟨f, hrf, _, _⟩
      left; simp [detect, hT, hrf]
  refine ⟨?_, hshape⟩
  rcases hshape with h | h <;> rw [h] <;> simp

/-- C10: For every manifest, a result of `detect` never carries a bundler
without a framework: if the bundler field is present, so is the framework
field. -/
theorem detect_bundler_implies_framework (pkg : PkgJson)
    (h : (detect pkg).bundler.isSome = true) :
    (detect pkg).framework.isSome = true := by
  rcases hT : templatePass pkg templateFrameworks with _ | r
  · rcases hl : libraryPass pkg libraryFrameworks with _ | r
    · rw [show detect pkg = { framework := none, bundler := none } from by
        simp [detect, hT, libraryDetect, hl]] at h
      simp at h
    · rcases libraryPass_some_shape pkg libraryFrameworks r hl with
        ⟨l, _, _, hr | hr⟩ <;> simp [detect, hT, libraryDetect, hl, hr]
  · rcases templatePass_some_shape pkg templateFrameworks r hT with
      ⟨f, hrf, _, _⟩
    simp [detect, hT, hrf]

/-- C10 witness: on the React-plus-vite manifest the bundler is present and
so is the framework. -/
theorem detect_bundler_implies_framework_witness :
    (detect pkgReactVite).framework.isSome = true :=
  detect_bundler_implies_framework pkgReactVite (by decide)

end FrameworkDetector
